import Mathlib

/-!
Shallow embedding of the webhook intake and event-aggregation engine of the
maubot/github plugin (src/github/webhook/aggregation.py,
src/github/webhook/handler.py, src/github/api/webhook.py, with event and
action enumerations from src/github/api/types.py).

Python enum members become inductive constructors; Python `None`-able fields
become `Option`; the Python `set` of delivery identifiers becomes a
`Finset String`; mutation of a `PendingAggregation` becomes explicit state
passing on `AggState`.  A Python `AttributeError`/`KeyError` escaping a
method is modelled by an explicit `raise`-style outcome.
-/

namespace Github

/-- `IssueAction` enum from src/github/api/types.py. -/
inductive IssueAction
  | opened | edited | deleted | pinned | unpinned | closed | reopened
  | assigned | unassigned | labeled | unlabeled | locked | unlocked
  | transferred | milestoned | demilestoned
  | xLabelAggregate | xMilestoneChanged
  deriving DecidableEq

/-- `PullRequestAction` enum from src/github/api/types.py.  Note that it has
no `MILESTONED`, `DEMILESTONED` or `X_MILESTONE_CHANGED` member. -/
inductive PullRequestAction
  | assigned | unassigned | reviewRequested | reviewRequestRemoved
  | labeled | unlabeled | opened | edited | closed | reopened
  | synchronize | readyForReview | locked | unlocked
  | xLabelAggregate
  deriving DecidableEq

/-- `CommentAction` enum from src/github/api/types.py. -/
inductive CommentAction
  | created | edited | deleted
  deriving DecidableEq

/-- `MetaAction` enum from src/github/api/types.py. -/
inductive MetaAction
  | deleted
  deriving DecidableEq

/-- `RepositoryAction` enum from src/github/api/types.py. -/
inductive RepositoryAction
  | created | deleted | archived | unarchived | edited | renamed
  | transferred | publicized | privatized
  deriving DecidableEq

/-- The union of action enums (`Action` in src/github/api/types.py).  Members
of distinct Python enum classes are never equal to each other, which the
separate constructors preserve; enums not referenced by the aggregation or
dispatch code are collapsed into `otherEnum` (same enum name and value means
the same member). -/
inductive Action
  | issue (a : IssueAction)
  | comment (a : CommentAction)
  | pullRequest (a : PullRequestAction)
  | meta (a : MetaAction)
  | repository (a : RepositoryAction)
  | otherEnum (enumName value : String)
  deriving DecidableEq

/-- `EventType` enum from src/github/api/types.py, plus `workflowJob`:
src/github/webhook/handler.py refers to `EventType.WORKFLOW_JOB` and
`WorkflowJobEvent`, which are absent from src/github/api/types.py (version
skew in the snapshot), so the member is added here for the handler's sake.
`parseEventType` and `eventClassFor` below follow types.py and therefore do
not know it. -/
inductive EventType
  | issues | issueComment | push | release | star | watch | ping | fork
  | create | delete | meta | commitComment | milestone | label | wiki
  | publicEvt | pullRequest | pullRequestReview | pullRequestReviewComment
  | repository
  | workflowJob
  deriving DecidableEq

/-- A label payload (`Label` in types.py); only the fields the aggregation
engine reads are kept. -/
structure Label where
  id : Nat
  name : String
  deriving DecidableEq

/-- A milestone payload (`Milestone` in types.py), reduced to the fields the
aggregation engine reads. -/
structure Milestone where
  id : Nat
  title : String
  deriving DecidableEq

/-- A commit in a push payload; the dispatcher only reads its `distinct`
flag. -/
structure Commit where
  distinct : Bool
  deriving DecidableEq

/-- A decoded event, flattened to the fields the dispatcher and the
aggregation engine consult.  `action` is `none` when the Python event class
has no `action` attribute (`PendingAggregation.__init__` then assigns
`None`).  `issueId` is the `issue_id` property (`issue.id` for issue and
comment events, `pull_request.id` for pull request events), `senderId` is
`sender.id`, `subjectLabels` is `issue.labels` / `pull_request.labels`,
`workflowJobName` is `workflow_job.name` of the workflow-job event class
that is referenced by handler.py but missing from types.py. -/
structure Event where
  action : Option Action
  issueId : Nat
  senderId : Nat
  label : Option Label
  milestone : Option Milestone
  subjectLabels : List Label
  size : Option Nat
  distinctSize : Option Nat
  commits : List Commit
  workflowJobName : String
  deriving DecidableEq

/-- The `aggregation` dict of a `PendingAggregation`.  An `Option` wrapper
records whether the corresponding dict key is present; the label lists hold
`Option Label` because the Python code appends the (possibly `None`)
`label` attribute of the event.  The `closed`/`reopened` keys are only ever
assigned `True`, so presence is a `Bool`. -/
structure Aggregation where
  addedLabels : Option (List (Option Label))
  removedLabels : Option (List (Option Label))
  milestoneTo : Option (Option Milestone)
  milestoneFrom : Option (Option Milestone)
  closed : Bool
  reopened : Bool
  deriving DecidableEq

/-- The empty `aggregation` dict set by `PendingAggregation.__init__`. -/
def Aggregation.empty : Aggregation :=
  ⟨none, none, none, none, false, false⟩

/-- The mutable state of one `PendingAggregation` instance: the
representative event type and event, the accumulator dict, the delivery-id
set and the `_label_ids` set (meaningful only after
`start_open_label_dropping`; the dispatch code reads it only under the
OPENED-representative guard). -/
structure AggState where
  eventType : EventType
  event : Event
  agg : Aggregation
  deliveryIds : Finset String
  labelIds : Finset Nat
  deriving DecidableEq

/-- `ACTION_CLASSES[t].OPENED`: present for issues and pull requests. -/
def actOpened : EventType → Option Action
  | .issues => some (.issue .opened)
  | .pullRequest => some (.pullRequest .opened)
  | _ => none

/-- `ACTION_CLASSES[t].LABELED`. -/
def actLabeled : EventType → Option Action
  | .issues => some (.issue .labeled)
  | .pullRequest => some (.pullRequest .labeled)
  | _ => none

/-- `ACTION_CLASSES[t].UNLABELED`. -/
def actUnlabeled : EventType → Option Action
  | .issues => some (.issue .unlabeled)
  | .pullRequest => some (.pullRequest .unlabeled)
  | _ => none

/-- `ACTION_CLASSES[t].X_LABEL_AGGREGATE`. -/
def actXLabelAggregate : EventType → Option Action
  | .issues => some (.issue .xLabelAggregate)
  | .pullRequest => some (.pullRequest .xLabelAggregate)
  | _ => none

/-- `evt.label and evt.label.id in self._label_ids` (a `None` label is
falsy). -/
def labelInSet : Option Label → Finset Nat → Bool
  | none, _ => false
  | some l, ids => decide (l.id ∈ ids)

/-- Outcome of one call to `PendingAggregation.aggregate`: the Python method
returns `False` (`reject`), returns `True` after mutating the instance
(`accept`, with the new state and the final value of the local `postpone`
flag), or lets an `AttributeError`/`KeyError` escape (`raise`). -/
inductive AggOutcome
  | raise
  | reject
  | accept (s : AggState) (postpone : Bool)
  deriving DecidableEq

/-- The `elif self.event_type in (EventType.ISSUES, EventType.PULL_REQUEST)`
block of `PendingAggregation.aggregate` (aggregation.py lines 151-174):
open-label dropping, label-list appending, and milestone slot filling.
Evaluating `self.action_type.MILESTONED` raises `AttributeError` when the
representative kind is pull request, because `PullRequestAction` has no
such member, and `self.aggregation["added_labels"].append(...)` raises
`KeyError` when the key is missing. -/
def aggregateSameKind (s : AggState) (evt : Event) (deliveryId : String) :
    AggOutcome :=
  if s.event.action = actOpened s.eventType ∧ evt.issueId = s.event.issueId
      ∧ labelInSet evt.label s.labelIds = true then
    .accept { s with deliveryIds := insert deliveryId s.deliveryIds } true
  else if s.event.action = actXLabelAggregate s.eventType then
    if evt.action = actLabeled s.eventType then
      match s.agg.addedLabels with
      | none => .raise
      | some ls =>
        .accept { s with
                  agg := { s.agg with addedLabels := some (ls ++ [evt.label]) },
                  deliveryIds := insert deliveryId s.deliveryIds } true
    else if evt.action = actUnlabeled s.eventType then
      match s.agg.removedLabels with
      | none => .raise
      | some ls =>
        .accept { s with
                  agg := { s.agg with removedLabels := some (ls ++ [evt.label]) },
                  deliveryIds := insert deliveryId s.deliveryIds } true
    else .reject
  else if s.eventType = .pullRequest then
    .raise
  else if s.event.action = some (.issue .milestoned)
      ∨ s.event.action = some (.issue .demilestoned) then
    if evt.action = some (.issue .milestoned) then
      .accept { s with
                agg := { s.agg with milestoneTo := some evt.milestone },
                event := { s.event with action := some (.issue .xMilestoneChanged) },
                deliveryIds := insert deliveryId s.deliveryIds } false
    else if evt.action = some (.issue .demilestoned) then
      .accept { s with
                agg := { s.agg with milestoneFrom := some evt.milestone },
                event := { s.event with action := some (.issue .xMilestoneChanged) },
                deliveryIds := insert deliveryId s.deliveryIds } false
    else .reject
  else .reject

/-- `PendingAggregation.aggregate` (aggregation.py lines 129-181),
translated branch by branch.  Notes on fidelity:
* the second branch replaces the representative event with the comment
  event and then compares `evt.action` (a `CommentAction`) against
  `IssueAction` members, so the `closed`/`reopened` keys are never set
  there, exactly as in the source;
* `self.delivery_ids.add(delivery_id)` and the `postpone` handling at the
  end of the method are folded into each `accept`. -/
def aggregate (s : AggState) (evtType : EventType) (evt : Event)
    (deliveryId : String) : AggOutcome :=
  if evtType = .issues ∧ s.eventType = .issueComment
      ∧ (evt.action = some (.issue .closed) ∨ evt.action = some (.issue .reopened))
      ∧ evt.issueId = s.event.issueId ∧ s.event.senderId = evt.senderId then
    let a :=
      if evt.action = some (.issue .closed) then { s.agg with closed := true }
      else if evt.action = some (.issue .reopened) then { s.agg with reopened := true }
      else s.agg
    .accept { s with agg := a, deliveryIds := insert deliveryId s.deliveryIds } true
  else if evtType = .issueComment ∧ s.eventType = .issues
      ∧ evt.action = some (.comment .created) ∧ s.event.senderId = evt.senderId
      ∧ evt.issueId = s.event.issueId
      ∧ (s.event.action = some (.issue .closed)
         ∨ s.event.action = some (.issue .reopened)) then
    let a :=
      if evt.action = some (.issue .closed) then { s.agg with closed := true }
      else if evt.action = some (.issue .reopened) then { s.agg with reopened := true }
      else s.agg
    .accept { s with
              eventType := evtType,
              event := evt,
              agg := a,
              deliveryIds := insert deliveryId s.deliveryIds } true
  else if evtType ≠ s.eventType then .reject
  else if s.eventType = .issues ∨ s.eventType = .pullRequest then
    aggregateSameKind s evt deliveryId
  else .reject

/-- The kinds of starter functions in
`PendingAggregation.aggregation_starters`. -/
inductive StarterKind
  | labelAggregation
  | openLabelDropping
  | milestoneAggregation
  | noop
  deriving DecidableEq

/-- The `aggregation_starters` table, keyed by (event type, action); a
lookup miss (including `action = none`) means "nothing to aggregate, send
right away". -/
def aggregation_starters (t : EventType) (a : Option Action) : Option StarterKind :=
  match t, a with
  | .issues, some (.issue .opened) => some .openLabelDropping
  | .issues, some (.issue .labeled) => some .labelAggregation
  | .issues, some (.issue .unlabeled) => some .labelAggregation
  | .issues, some (.issue .milestoned) => some .milestoneAggregation
  | .issues, some (.issue .demilestoned) => some .milestoneAggregation
  | .pullRequest, some (.pullRequest .opened) => some .openLabelDropping
  | .pullRequest, some (.pullRequest .labeled) => some .labelAggregation
  | .pullRequest, some (.pullRequest .unlabeled) => some .labelAggregation
  | .issueComment, some (.comment .created) => some .noop
  | .issues, some (.issue .reopened) => some .noop
  | .issues, some (.issue .closed) => some .noop
  | _, _ => none

/-- `PendingAggregation.start_label_aggregation`: initialize the two lists,
seed one of them with the starting event's label, and switch the
representative action to the `X_LABEL_AGGREGATE` pseudo-action. -/
def start_label_aggregation (s : AggState) : AggState :=
  let base : Aggregation :=
    { Aggregation.empty with addedLabels := some [], removedLabels := some [] }
  let a :=
    if s.event.action = actLabeled s.eventType then
      { base with addedLabels := some [s.event.label] }
    else
      { base with removedLabels := some [s.event.label] }
  { s with
    agg := a,
    event := { s.event with action := actXLabelAggregate s.eventType } }

/-- `PendingAggregation.start_open_label_dropping`: record the ids of the
labels already present on the newly opened subject. -/
def start_open_label_dropping (s : AggState) : AggState :=
  { s with labelIds := (s.event.subjectLabels.map Label.id).toFinset }

/-- `PendingAggregation.start_milestone_aggregation`: record a "to" or
"from" milestone depending on the starting action (the starter table only
routes issue MILESTONED/DEMILESTONED events here). -/
def start_milestone_aggregation (s : AggState) : AggState :=
  if s.event.action = some (.issue .milestoned) then
    { s with agg := { s.agg with milestoneTo := some s.event.milestone } }
  else if s.event.action = some (.issue .demilestoned) then
    { s with agg := { s.agg with milestoneFrom := some s.event.milestone } }
  else s

/-- Dispatch a `StarterKind` to its starter function. -/
def runStarter : StarterKind → AggState → AggState
  | .labelAggregation, s => start_label_aggregation s
  | .openLabelDropping, s => start_open_label_dropping s
  | .milestoneAggregation, s => start_milestone_aggregation s
  | .noop, s => s

/-- The state built by `PendingAggregation.__init__`: empty accumulator and
a singleton delivery-id set (`labelIds := ∅` stands for the still-unset
`_label_ids` attribute). -/
def initState (t : EventType) (e : Event) (d : String) : AggState :=
  { eventType := t, event := e, agg := Aggregation.empty,
    deliveryIds := {d}, labelIds := ∅ }

/-!
## Dispatcher and trace model

`WebhookHandler.__call__` (src/github/webhook/handler.py) together with
`PendingAggregation._start`/`_sleep`/`_send` is modelled as a transition
system on the pending queue of one subscription (queues of distinct
subscriptions share no state).  Per the cooperative scheduling of the
source, merge attempts against one subscription's queue are serialized, a
merge with `postpone` resets the deadline, and when a deadline elapses the
instance is removed from the queue before its `_send` handoff, so removal
plus flush is one atomic step relative to merges.  The ghost fields
`starterId`/`mergedIds` record where every member of `delivery_ids` came
from.
-/

/-- One live `PendingAggregation` instance: a creation-order identity, the
ghost record of its starting delivery id and of the delivery ids of
accepted merges, and its mutable state. -/
structure Inst where
  aggId : Nat
  starterId : String
  mergedIds : Finset String
  st : AggState
  deriving DecidableEq

/-- Result of the `for pending in self.pending_aggregations[info.id]` loop
of `WebhookHandler.__call__`: some pending aggregation raised, the first
accepting one merged the event (updated queue), or none accepted. -/
inductive LoopResult
  | raised
  | accepted (q : List Inst)
  | unaccepted
  deriving DecidableEq

/-- The dispatch loop: offer the event to the pending aggregations oldest
first; the first `aggregate` that returns `True` consumes it. -/
def offerLoop (q : List Inst) (t : EventType) (e : Event) (d : String) :
    LoopResult :=
  match q with
  | [] => .unaccepted
  | i :: rest =>
    match aggregate i.st t e d with
    | .raise => .raised
    | .accept s' _postpone =>
      .accepted ({ i with st := s', mergedIds := insert d i.mergedIds } :: rest)
    | .reject =>
      match offerLoop rest t e d with
      | .raised => .raised
      | .accepted q' => .accepted (i :: q')
      | .unaccepted => .unaccepted

/-- The aggregation-engine state of one subscription: the pending queue in
creation order, the log of `_send` handoffs to the delivery collaborator
(each entry is the instance exactly as flushed), and the creation
counter. -/
structure Sys where
  queue : List Inst
  sent : List Inst
  nextId : Nat
  deriving DecidableEq

/-- A freshly constructed `PendingAggregation(handler, t, e, d, info)`. -/
def newInst (nid : Nat) (t : EventType) (e : Event) (d : String) : Inst :=
  { aggId := nid, starterId := d, mergedIds := ∅, st := initState t e d }

/-- Lines 140-143 of handler.py plus `PendingAggregation._start` with the
timeout not yet elapsed: try to merge into a pending aggregation; if a
pending `aggregate` raises, the exception propagates out of `__call__` and
nothing further happens; if none accepts, a new instance is created and
started — its starter either registers it in the queue or, when the
(type, action) pair has no starter, sends the event right away. -/
def dispatchEnabled (σ : Sys) (t : EventType) (e : Event) (d : String) : Sys :=
  match offerLoop σ.queue t e d with
  | .raised => σ
  | .accepted q' => { σ with queue := q' }
  | .unaccepted =>
    let i := newInst σ.nextId t e d
    match aggregation_starters t e.action with
    | some k =>
      { σ with queue := σ.queue ++ [{ i with st := runStarter k i.st }],
               nextId := σ.nextId + 1 }
    | none =>
      { σ with sent := σ.sent ++ [i], nextId := σ.nextId + 1 }

/-- The two transitions that touch one subscription's aggregation state:
an event is dispatched with aggregation enabled, or some pending
instance's deadline elapses (`_sleep` returns), removing it from the queue
and handing it to `_send`. -/
inductive Step : Sys → Sys → Prop
  | deliver (σ : Sys) (t : EventType) (e : Event) (d : String) :
      Step σ (dispatchEnabled σ t e d)
  | flush (σ : Sys) (pre post : List Inst) (a : Inst)
      (h : σ.queue = pre ++ a :: post) :
      Step σ { queue := pre ++ post, sent := σ.sent ++ [a], nextId := σ.nextId }

/-- The state of a subscription with no pending aggregations and no flush
yet. -/
def Sys.init : Sys := { queue := [], sent := [], nextId := 0 }

/-- States reachable from the initial state by dispatches and deadline
flushes. -/
def Reachable (σ : Sys) : Prop := Relation.ReflTransGen Step Sys.init σ

/-!
## `WebhookHandler.__call__` as one function

For the claims about the dispatcher itself (pre-processing side effects,
the negative-timeout bypass), `__call__` is embedded as a function from the
incoming event to the list of side effects on the collaborators plus the
updated queue.  Results of the external collaborators (database lookups,
the reaction-key computation of the workflow-job event class that is
missing from types.py, whether `send_message` returned an event id) are
oracle inputs in `CallEnv`.
-/

/-- Calls `__call__` makes on its collaborators, in order. -/
inductive Effect
  | setGithubId
  | deleteWebhook
  | transferRepo
  | redactPrevReaction
  | sendReaction
  | putReactionEvent
  | sendMessage (t : EventType) (e : Event) (deliveryIds : Finset String)
      (agg : Option Aggregation)
  | putPushEvent
  deriving DecidableEq

/-- Oracle answers of the external collaborators used by `__call__`. -/
structure CallEnv where
  pushEventFound : Bool
  colorCircleOk : Bool
  prevReactionFound : Bool
  messageSentOk : Bool
  deriving DecidableEq

/-- Result of the pre-processing `if/elif` chain of `__call__` (handler.py
lines 86-131): collaborator effects, the (possibly updated) event, and
whether the chain returned early. -/
structure PreResult where
  effects : List Effect
  evt : Event
  earlyReturn : Bool
  deriving DecidableEq

/-- The pre-processing `if/elif` chain of `__call__`, branch by branch:
ping records the hook id; "meta: deleted" deletes the webhook;
repository transfer/rename updates the stored repo name and repository
deletion deletes the webhook; a push without commit counts gets them
computed from the commit list; a workflow-job event returns early for
"lock-stale" jobs, when the push message is not found, or when the
reaction-key computation raises, and otherwise redacts the previous
reaction (if any) and sends and records the new one. -/
def preprocess (env : CallEnv) (t : EventType) (e : Event) : PreResult :=
  if t = .ping then ⟨[.setGithubId], e, false⟩
  else if t = .meta ∧ e.action = some (.meta .deleted) then ⟨[.deleteWebhook], e, false⟩
  else if t = .repository then
    if e.action = some (.repository .transferred)
        ∨ e.action = some (.repository .renamed) then ⟨[.transferRepo], e, false⟩
    else if e.action = some (.repository .deleted) then ⟨[.deleteWebhook], e, false⟩
    else ⟨[], e, false⟩
  else if t = .push ∧ (e.size = none ∨ e.distinctSize = none) then
    ⟨[], { e with
           size := some e.commits.length,
           distinctSize := some (e.commits.filter Commit.distinct).length }, false⟩
  else if t = .workflowJob then
    if e.workflowJobName = "lock-stale" then ⟨[], e, true⟩
    else if env.pushEventFound = false then ⟨[], e, true⟩
    else if env.colorCircleOk = false then ⟨[], e, true⟩
    else ⟨(if env.prevReactionFound then [.redactPrevReaction] else [])
          ++ [.sendReaction, .putReactionEvent], e, false⟩
  else ⟨[], e, false⟩

/-- What one call of `__call__` produced: the effect list and the
subscription's queue and creation counter afterwards. -/
structure CallResult where
  effects : List Effect
  queue : List Inst
  nextId : Nat
  deriving DecidableEq

/-- `WebhookHandler.__call__` (handler.py lines 85-143): pre-process, then
either return early (workflow-job branch), flush immediately solo when the
configured timeout is negative (plus recording the sent push message), or
run the dispatch loop / start a new `PendingAggregation`.  A solo flush of
a new instance with no starter shows up as a `sendMessage` effect carrying
that instance's fields (its `aggregation` dict, which is empty). -/
def webhookCall (env : CallEnv) (timeout : Int) (σ : Sys) (t : EventType)
    (e : Event) (d : String) : CallResult :=
  let p := preprocess env t e
  if p.earlyReturn then ⟨p.effects, σ.queue, σ.nextId⟩
  else if timeout < 0 then
    ⟨p.effects ++ [.sendMessage t p.evt {d} none]
      ++ (if t = .push ∧ env.messageSentOk = true then [.putPushEvent] else []),
     σ.queue, σ.nextId⟩
  else
    let σ' := dispatchEnabled { queue := σ.queue, sent := [], nextId := σ.nextId } t p.evt d
    ⟨p.effects ++ σ'.sent.map (fun i =>
        .sendMessage i.st.eventType i.st.event i.st.deliveryIds (some i.st.agg)),
     σ'.queue, σ'.nextId⟩

/-!
## Webhook receiver

`GitHubWebhookReceiver._handle` (src/github/api/webhook.py lines 98-130).
The HMAC-SHA1 hex digest, the JSON well-formedness/non-emptiness test and
the per-type deserializers are library code outside this repository and are
taken as parameters; the receiver's own control flow — header extraction
order, the `"sha1=" + hexdigest` construction, `hmac.compare_digest`
(extensionally string equality; its constant-time execution is not modelled)
and the response statuses — is translated from the source.
-/

/-- One inbound webhook request as `_handle` sees it: the three headers
(absent ones raise `KeyError`) and the raw body text. -/
structure WebhookRequest where
  signature : Option String
  eventName : Option String
  deliveryId : Option String
  body : String
  deriving DecidableEq

/-- `EventType(header)` per the enum values in types.py (`ValueError` on
anything else); the handler-only `workflowJob` member is not a types.py
value, so no header maps to it. -/
def parseEventType : String → Option EventType
  | "issues" => some .issues
  | "issue_comment" => some .issueComment
  | "push" => some .push
  | "release" => some .release
  | "star" => some .star
  | "watch" => some .watch
  | "ping" => some .ping
  | "fork" => some .fork
  | "create" => some .create
  | "delete" => some .delete
  | "meta" => some .meta
  | "commit_comment" => some .commitComment
  | "milestone" => some .milestone
  | "label" => some .label
  | "gollum" => some .wiki
  | "public" => some .publicEvt
  | "pull_request" => some .pullRequest
  | "pull_request_review" => some .pullRequestReview
  | "pull_request_review_comment" => some .pullRequestReviewComment
  | "repository" => some .repository
  | _ => none

/-- Membership in the `EVENT_CLASSES` table of types.py, which has an entry
for every types.py `EventType` member. -/
def eventClassFor : EventType → Bool
  | .workflowJob => false
  | _ => true

/-- Classification outcome of `_handle`; only `ok` invokes the event
handler. -/
inductive HandleResponse
  | missingHeader
  | unsupportedEventType
  | invalidSignature
  | malformedJson
  | unsupportedEventClass
  | parseFailed
  | ok
  deriving DecidableEq

/-- The HTTP status `_handle` answers with in each outcome. -/
def handleStatus : HandleResponse → Nat
  | .missingHeader => 400
  | .unsupportedEventType => 500
  | .invalidSignature => 401
  | .malformedJson => 400
  | .unsupportedEventClass => 500
  | .parseFailed => 500
  | .ok => 200

/-- Whether `_handle` reached the `await self.handler(...)` call. -/
def handlerInvoked : HandleResponse → Bool
  | .ok => true
  | _ => false

/-- `GitHubWebhookReceiver._handle`: extract the signature header, parse the
event-type header, extract the delivery-id header (in source order: a
missing signature or event header is reported before the delivery header is
read), compare the claimed signature against `"sha1=" ++` the HMAC-SHA1 hex
digest of the body under the subscription secret, then parse the body and
deserialize, and finally invoke the handler. -/
def handleRequest (hexDigest : String → String → String)
    (jsonNonempty : String → Bool) (deserializeOk : EventType → String → Bool)
    (secret : String) (req : WebhookRequest) : HandleResponse :=
  match req.signature with
  | none => .missingHeader
  | some sig =>
    match req.eventName with
    | none => .missingHeader
    | some en =>
      match parseEventType en with
      | none => .unsupportedEventType
      | some t =>
        match req.deliveryId with
        | none => .missingHeader
        | some _ =>
          let digest := "sha1=" ++ hexDigest secret req.body
          if sig = digest then
            if jsonNonempty req.body = true then
              if eventClassFor t = true then
                if deserializeOk t req.body = true then .ok else .parseFailed
              else .unsupportedEventClass
            else .malformedJson
          else .invalidSignature

/-!
## Concrete fixtures

Events and aggregation states used by the concrete evaluations below.
-/

/-- A base event with every optional field absent. -/
def e0 : Event where
  action := none
  issueId := 0
  senderId := 0
  label := none
  milestone := none
  subjectLabels := []
  size := none
  distinctSize := none
  commits := []
  workflowJobName := ""

/-- ISSUES / LABELED "bug" on issue 1. -/
def eLab1 : Event := { e0 with
  action := some (.issue .labeled)
  issueId := 1
  label := some ⟨10, "bug"⟩ }

/-- The label aggregation started by `eLab1`. -/
def sLab : AggState := runStarter .labelAggregation (initState .issues eLab1 "d1")

/-- ISSUES / LABELED "x" on issue 2 (a different subject). -/
def eLab2 : Event := { e0 with
  action := some (.issue .labeled)
  issueId := 2
  label := some ⟨11, "x"⟩ }

/-- ISSUES / MILESTONED on issue 1 with milestone "v1". -/
def eMs1 : Event := { e0 with
  action := some (.issue .milestoned)
  issueId := 1
  milestone := some ⟨5, "v1"⟩ }

/-- The milestone aggregation started by `eMs1`. -/
def sMs : AggState := runStarter .milestoneAggregation (initState .issues eMs1 "d1")

/-- ISSUES / MILESTONED on issue 2 (same action as `eMs1`, different
subject) with milestone "v2". -/
def eMs2 : Event := { e0 with
  action := some (.issue .milestoned)
  issueId := 2
  milestone := some ⟨6, "v2"⟩ }

/-- ISSUES / CLOSED on issue 9 by sender 1. -/
def eClosed9 : Event := { e0 with
  action := some (.issue .closed)
  issueId := 9
  senderId := 1 }

/-- The (noop-started) aggregation begun by `eClosed9`. -/
def sClosed : AggState := runStarter .noop (initState .issues eClosed9 "d1")

/-- ISSUE_COMMENT / CREATED on issue 9 by sender 1. -/
def eComment9 : Event := { e0 with
  action := some (.comment .created)
  issueId := 9
  senderId := 1 }

/-- The (noop-started) aggregation begun by `eComment9`. -/
def sComm : AggState := runStarter .noop (initState .issueComment eComment9 "d1")

/-- PULL_REQUEST / OPENED on pull request 7 with no labels. -/
def ePrOpen : Event := { e0 with
  action := some (.pullRequest .opened)
  issueId := 7 }

/-- The open-label-dropping aggregation started by `ePrOpen`. -/
def sPr : AggState := runStarter .openLabelDropping (initState .pullRequest ePrOpen "d1")

/-- PULL_REQUEST / CLOSED on pull request 7. -/
def ePrClosed : Event := { e0 with
  action := some (.pullRequest .closed)
  issueId := 7 }

/-- The pending-queue entry holding `sPr`. -/
def iPr : Inst where
  aggId := 0
  starterId := "d1"
  mergedIds := ∅
  st := sPr

/-- ISSUES / OPENED on issue 7, already carrying the label "bug" (id 10). -/
def eOpen7 : Event := { e0 with
  action := some (.issue .opened)
  issueId := 7
  subjectLabels := [⟨10, "bug"⟩] }

/-- The open-label-dropping aggregation started by `eOpen7`. -/
def sOpen : AggState := runStarter .openLabelDropping (initState .issues eOpen7 "d1")

/-- ISSUES / LABELED "bug" (id 10) on issue 7 — the label was already on the
opened issue. -/
def eLabBug : Event := { e0 with
  action := some (.issue .labeled)
  issueId := 7
  label := some ⟨10, "bug"⟩ }

/-- META / DELETED lifecycle event. -/
def eMeta : Event := { e0 with action := some (.meta .deleted) }

/-- A workflow-job event for the job named "lock-stale". -/
def eWf : Event := { e0 with workflowJobName := "lock-stale" }

/-- A collaborator-oracle environment (its values are irrelevant to the
fixtures that use it). -/
def envc : CallEnv where
  pushEventFound := false
  colorCircleOk := false
  prevReactionFound := false
  messageSentOk := false

/-- ISSUES / DEMILESTONED on issue 1 with milestone "v3" — the action
complementary to `eMs1`. -/
def eDems : Event := { e0 with
  action := some (.issue .demilestoned)
  issueId := 1
  milestone := some ⟨7, "v3"⟩ }

/-- The pending instance created by dispatching `eLab1` into the initial
system. -/
def instL : Inst := ⟨0, "d1", ∅, sLab⟩

/-- The system after `eLab1` was dispatched and its aggregation's deadline
elapsed. -/
def σb : Sys := { queue := [], sent := [instL], nextId := 1 }

/-- The state/event shape of the milestone slot-filling merge — the unique
accepting case of `aggregate` in which `postpone` ends up `False`, so the
deadline is not extended. -/
def milestoneSlotFill (s : AggState) (t : EventType) (e : Event) : Prop :=
  t = .issues ∧ s.eventType = .issues
  ∧ (s.event.action = some (.issue .milestoned)
     ∨ s.event.action = some (.issue .demilestoned))
  ∧ (e.action = some (.issue .milestoned)
     ∨ e.action = some (.issue .demilestoned))

/-- The inductive invariant of the per-subscription system: the identities
of pending and flushed instances enumerate the creation counter without
repetition, and every instance's delivery-id set is exactly its starter's
delivery id plus the ids of its accepted merges. -/
def goodSys (σ : Sys) : Prop :=
  ((σ.queue ++ σ.sent).map Inst.aggId).Perm (List.range σ.nextId)
  ∧ ∀ i ∈ σ.queue ++ σ.sent, i.st.deliveryIds = insert i.starterId i.mergedIds

/-!
## Shared lemmas
-/

/-- A META event never merges into any pending aggregation: the two
cross-kind branches ask for ISSUES/ISSUE_COMMENT candidates, and a META
candidate either differs from the representative kind or fails the
issue/pull-request kind guard. -/
theorem aggregate_meta_reject (s : AggState) (e : Event) (d : String) :
    aggregate s .meta e d = .reject := by
  by_cases h : s.eventType = .meta
  · simp [aggregate, h]
  · have h' : ¬(EventType.meta = s.eventType) := fun hh => h hh.symm
    simp [aggregate, h, h']

/-- Consequently the dispatch loop never accepts a META event. -/
theorem offerLoop_meta (q : List Inst) (e : Event) (d : String) :
    offerLoop q .meta e d = .unaccepted := by
  induction q with
  | nil => rfl
  | cons i rest ih => simp [offerLoop, aggregate_meta_reject, ih]

/-!
## The claims
-/

/-- C2 (code bug): with a pull-request aggregation started by an OPENED
event pending, a pull-request CLOSED candidate for the same subject makes
`aggregate` evaluate `PullRequestAction.MILESTONED`, which does not exist,
so an `AttributeError` escapes `WebhookHandler.__call__`: the event is
neither merged nor — contrary to the claim — given a new
`PendingAggregation`; the dispatch state is left unchanged. -/
theorem claim_c2_pr_closed_raises :
    aggregate sPr .pullRequest ePrClosed "d2" = .raise
    ∧ dispatchEnabled ⟨[iPr], [], 1⟩ .pullRequest ePrClosed "d2" = ⟨[iPr], [], 1⟩ := by
  decide

/-- C3 (counterexample): a LABELED candidate on issue 2 merges into the
pending label aggregation for issue 1 — `aggregate` never compares the
subjects, refuting the claim's "concerns the same subject" condition. -/
theorem claim_c3_counterexample :
    eLab2.issueId ≠ sLab.event.issueId
    ∧ aggregate sLab .issues eLab2 "d2"
      = .accept { sLab with
          agg := { sLab.agg with
                   addedLabels := some [some ⟨10, "bug"⟩, some ⟨11, "x"⟩] }
          deliveryIds := insert "d2" {"d1"} } true := by
  decide

/-- C4 (counterexample): a second MILESTONED event — the same action as the
starter, not the complementary one, and on a different subject — still
merges into the milestone aggregation, overwriting the "to" slot, flipping
the action and not postponing; this refutes the claim's "only complementary
same-subject events merge". -/
theorem claim_c4_counterexample :
    eMs2.issueId ≠ sMs.event.issueId
    ∧ sMs.event.action = some (.issue .milestoned)
    ∧ eMs2.action = some (.issue .milestoned)
    ∧ aggregate sMs .issues eMs2 "d2"
      = .accept { sMs with
          agg := { sMs.agg with milestoneTo := some (some ⟨6, "v2"⟩) }
          event := { sMs.event with action := some (.issue .xMilestoneChanged) }
          deliveryIds := insert "d2" {"d1"} } false := by
  decide

/-- C5 (code bug evaluation): an aggregation started by issue CLOSED on
issue 9 by sender 1 accepts a comment-created candidate by the same sender
on the same issue and replaces the representative event with the comment —
but the accumulator stays empty: the flag-setting code compares the
comment's action (`CommentAction.CREATED`) against `IssueAction` members,
which can never be equal, so neither `closed` nor `reopened` is set.  The
mirror-image merge (comment-started aggregation accepting a CLOSED event)
does set the flag correctly. -/
theorem claim_c5_flag_lost :
    aggregate sClosed .issueComment eComment9 "d2"
      = .accept { eventType := .issueComment, event := eComment9,
                  agg := Aggregation.empty,
                  deliveryIds := insert "d2" {"d1"}, labelIds := ∅ } true
    ∧ Aggregation.empty.closed = false
    ∧ Aggregation.empty.reopened = false
    ∧ aggregate sComm .issues eClosed9 "d2"
      = .accept { sComm with
          agg := { sComm.agg with closed := true }
          deliveryIds := insert "d2" {"d1"} } true := by
  decide

/-- C8 (counterexample): a workflow-job event for the job "lock-stale"
returns from `__call__` inside the pre-processing chain even though the
aggregation timeout is negative, so no `send_message` flush happens at all
(the effect list is empty). -/
theorem claim_c8_counterexample :
    (-1 : Int) < 0
    ∧ webhookCall envc (-1) Sys.init .workflowJob eWf "d1" = ⟨[], [], 0⟩ := by
  decide

/-- C9 (counterexample): dispatching a "meta: deleted" event with
aggregation disabled removes the webhook but then keeps processing the
event: it is flushed solo through the delivery collaborator, refuting the
claim's "no further processing / not flushed". -/
theorem claim_c9_counterexample :
    (webhookCall envc (-1) Sys.init .meta eMeta "d1").effects
      = [.deleteWebhook, .sendMessage .meta eMeta {"d1"} none] := by
  decide

/-- Characterization of the accepting runs of the same-kind block: the
delivery id is always added, and `postpone` is `False` exactly for the
milestone slot-filling merge (which cannot happen for a pull-request
representative, where the milestone test raises instead). -/
theorem aggregateSameKind_accept (s : AggState) (e : Event) (d : String)
    (s' : AggState) (p : Bool) (h : aggregateSameKind s e d = .accept s' p) :
    s'.deliveryIds = insert d s.deliveryIds
    ∧ (p = false ↔ ¬s.eventType = .pullRequest
        ∧ (s.event.action = some (.issue .milestoned)
           ∨ s.event.action = some (.issue .demilestoned))
        ∧ (e.action = some (.issue .milestoned)
           ∨ e.action = some (.issue .demilestoned))) := by
  unfold aggregateSameKind at h
  repeat' split at h
  all_goals try exact AggOutcome.noConfusion h
  all_goals injection h with h1 h2
  all_goals subst h1
  all_goals subst h2
  all_goals refine ⟨rfl, ?_⟩
  all_goals simp only [Bool.true_eq_false, eq_self_iff_true, false_iff, true_iff]
  all_goals
    first
      | (rintro ⟨hnpr, hms, hems⟩
         cases hk : s.eventType <;> simp_all [actOpened, actXLabelAggregate])
      | (refine ⟨?_, ?_, ?_⟩ <;> simp_all)

/-- Characterization of the accepting runs of `aggregate`: every `True`
return adds the candidate's delivery id to the set, and the `postpone`
flag is cleared exactly by the milestone slot-filling merge. -/
theorem aggregate_accept (s : AggState) (t : EventType) (e : Event) (d : String)
    (s' : AggState) (p : Bool) (h : aggregate s t e d = .accept s' p) :
    s'.deliveryIds = insert d s.deliveryIds
    ∧ (p = false ↔ milestoneSlotFill s t e) := by
  unfold aggregate at h
  split at h
  · rename_i hc
    injection h with h1 h2
    subst h1; subst h2
    refine ⟨rfl, ?_⟩
    simp only [Bool.true_eq_false, false_iff]
    rintro ⟨-, hm2, -, -⟩
    exact absurd (hc.2.1.symm.trans hm2) (by simp)
  · split at h
    · rename_i hc
      injection h with h1 h2
      subst h1; subst h2
      refine ⟨rfl, ?_⟩
      simp only [Bool.true_eq_false, false_iff]
      rintro ⟨hm1, -, -, -⟩
      exact absurd (hc.1.symm.trans hm1) (by simp)
    · split at h
      · exact AggOutcome.noConfusion h
      · split at h
        · rename_i hne hk
          have hte : t = s.eventType := by
            by_contra hcon
            exact hne hcon
          obtain ⟨hids, hiff⟩ := aggregateSameKind_accept s e d s' p h
          refine ⟨hids, ?_⟩
          rw [hiff]
          unfold milestoneSlotFill
          constructor
          · rintro ⟨hnpr, hms, hems⟩
            have hsi : s.eventType = .issues := by
              rcases hk with hk | hk
              · exact hk
              · exact absurd hk hnpr
            exact ⟨hte.trans hsi, hsi, hms, hems⟩
          · rintro ⟨ht1, hsi, hms, hems⟩
            exact ⟨by rw [hsi]; simp, hms, hems⟩
        · exact AggOutcome.noConfusion h

/-- No starter function touches the delivery-id set. -/
theorem runStarter_deliveryIds (k : StarterKind) (s : AggState) :
    (runStarter k s).deliveryIds = s.deliveryIds := by
  cases k
  all_goals
    simp only [runStarter, start_label_aggregation, start_open_label_dropping,
      start_milestone_aggregation]
  all_goals split_ifs <;> rfl

/-- An accepting dispatch loop preserves the queue's instance identities in
place. -/
theorem offerLoop_accepted_aggIds (q : List Inst) (t : EventType) (e : Event)
    (d : String) (q' : List Inst) (h : offerLoop q t e d = .accepted q') :
    q'.map Inst.aggId = q.map Inst.aggId := by
  induction q generalizing q' with
  | nil => simp [offerLoop] at h
  | cons i rest ih =>
    rw [offerLoop] at h
    cases hagg : aggregate i.st t e d with
    | raise => rw [hagg] at h; exact LoopResult.noConfusion h
    | accept s' p =>
      rw [hagg] at h
      injection h with h1
      subst h1
      simp
    | reject =>
      rw [hagg] at h
      cases hrec : offerLoop rest t e d with
      | raised => rw [hrec] at h; exact LoopResult.noConfusion h
      | accepted q'' =>
        rw [hrec] at h
        injection h with h1
        subst h1
        simp [ih q'' hrec]
      | unaccepted => rw [hrec] at h; exact LoopResult.noConfusion h

/-- Every member of an accepting dispatch loop's result is either an
untouched old member or the unique first acceptor updated by its merge. -/
theorem offerLoop_accepted_mem (q : List Inst) (t : EventType) (e : Event)
    (d : String) (q' : List Inst) (h : offerLoop q t e d = .accepted q') :
    ∀ j ∈ q', j ∈ q
      ∨ ∃ i ∈ q, ∃ (s' : AggState) (p : Bool),
          aggregate i.st t e d = .accept s' p
          ∧ j = { i with st := s', mergedIds := insert d i.mergedIds } := by
  induction q generalizing q' with
  | nil => simp [offerLoop] at h
  | cons i rest ih =>
    rw [offerLoop] at h
    cases hagg : aggregate i.st t e d with
    | raise => rw [hagg] at h; exact LoopResult.noConfusion h
    | accept s' p =>
      rw [hagg] at h
      injection h with h1
      subst h1
      intro j hj
      rcases List.mem_cons.mp hj with hj | hj
      · exact Or.inr ⟨i, List.mem_cons_self i rest, s', p, hagg, hj⟩
      · exact Or.inl (List.mem_cons_of_mem i hj)
    | reject =>
      rw [hagg] at h
      cases hrec : offerLoop rest t e d with
      | raised => rw [hrec] at h; exact LoopResult.noConfusion h
      | accepted q'' =>
        rw [hrec] at h
        injection h with h1
        subst h1
        intro j hj
        rcases List.mem_cons.mp hj with hj | hj
        · exact Or.inl (by simp [hj])
        · rcases ih q'' hrec j hj with hmem | ⟨i', hi', s', p, hacc, hje⟩
          · exact Or.inl (List.mem_cons_of_mem i hmem)
          · exact Or.inr ⟨i', List.mem_cons_of_mem i hi', s', p, hacc, hje⟩
      | unaccepted => rw [hrec] at h; exact LoopResult.noConfusion h

/-- Both transitions preserve the system invariant. -/
theorem step_good (σ σ' : Sys) (hstep : Step σ σ') (hg : goodSys σ) : goodSys σ' := by
  obtain ⟨hperm, hids⟩ := hg
  cases hstep with
  | deliver t e d =>
    unfold dispatchEnabled
    cases hl : offerLoop σ.queue t e d with
    | raised => exact ⟨hperm, hids⟩
    | accepted q' =>
      constructor
      · simpa [List.map_append, offerLoop_accepted_aggIds σ.queue t e d q' hl] using hperm
      · intro i hi
        rcases List.mem_append.mp hi with hi | hi
        · rcases offerLoop_accepted_mem σ.queue t e d q' hl i hi with
            hmem | ⟨i', hi', s', p, hacc, hje⟩
          · exact hids i (List.mem_append.mpr (Or.inl hmem))
          · subst hje
            have h1 := (aggregate_accept i'.st t e d s' p hacc).1
            have h2 := hids i' (List.mem_append.mpr (Or.inl hi'))
            simp only [h1, h2]
            exact Finset.Insert.comm d i'.starterId i'.mergedIds
        · exact hids i (List.mem_append.mpr (Or.inr hi))
    | unaccepted =>
      cases hst : aggregation_starters t e.action with
      | some k =>
        constructor
        · have hmid : (((σ.queue ++ [{ newInst σ.nextId t e d with
              st := runStarter k (newInst σ.nextId t e d).st }]) ++ σ.sent).map
                Inst.aggId).Perm
              (σ.nextId :: ((σ.queue ++ σ.sent).map Inst.aggId)) := by
            simp only [List.map_append, List.append_assoc]
            refine List.perm_iff_count.mpr fun x => ?_
            simp [List.count_append, List.count_cons, newInst]
            omega
          refine hmid.trans ?_
          refine (hperm.cons σ.nextId).trans ?_
          rw [List.range_succ]
          exact (List.perm_append_singleton σ.nextId (List.range σ.nextId)).symm
        · intro i hi
          simp only [List.mem_append, List.mem_singleton] at hi
          rcases hi with (hi | hi) | hi
          · exact hids i (List.mem_append.mpr (Or.inl hi))
          · subst hi
            simp [newInst, initState, runStarter_deliveryIds]
          · exact hids i (List.mem_append.mpr (Or.inr hi))
      | none =>
        constructor
        · have hmid : ((σ.queue ++ (σ.sent ++ [newInst σ.nextId t e d])).map
              Inst.aggId).Perm
              (σ.nextId :: ((σ.queue ++ σ.sent).map Inst.aggId)) := by
            refine List.perm_iff_count.mpr fun x => ?_
            simp [List.count_append, List.count_cons, newInst]
            omega
          refine hmid.trans ?_
          refine (hperm.cons σ.nextId).trans ?_
          rw [List.range_succ]
          exact (List.perm_append_singleton σ.nextId (List.range σ.nextId)).symm
        · intro i hi
          simp only [List.mem_append, List.mem_singleton] at hi
          rcases hi with hi | hi | hi
          · exact hids i (List.mem_append.mpr (Or.inl hi))
          · exact hids i (List.mem_append.mpr (Or.inr hi))
          · subst hi
            simp [newInst, initState]
  | flush pre post a hq =>
    constructor
    · have hmid : (((pre ++ post) ++ (σ.sent ++ [a])).map Inst.aggId).Perm
          (((pre ++ a :: post) ++ σ.sent).map Inst.aggId) := by
        refine List.perm_iff_count.mpr fun x => ?_
        simp [List.count_append, List.count_cons]
        omega
      rw [hq] at hperm
      exact hmid.trans hperm
    · intro i hi
      rw [hq] at hids
      simp only [List.mem_append, List.mem_singleton, List.mem_cons] at hi ⊢
      apply hids
      simp only [List.mem_append, List.mem_cons]
      tauto

/-- The invariant holds in every reachable system state. -/
theorem reachable_good (σ : Sys) (h : Reachable σ) : goodSys σ := by
  induction h with
  | refl =>
    constructor
    · simp [Sys.init]
    · intro i hi
      simp [Sys.init] at hi
  | tail _hab hbc ih => exact step_good _ _ hbc ih

/-- `σb` — one dispatch of `eLab1` followed by its deadline flush — is
reachable. -/
theorem σb_reachable : Reachable σb := by
  have h1 : Step Sys.init (dispatchEnabled Sys.init .issues eLab1 "d1") :=
    Step.deliver Sys.init .issues eLab1 "d1"
  have heq : dispatchEnabled Sys.init .issues eLab1 "d1" = (⟨[instL], [], 1⟩ : Sys) := by
    decide
  have r1 : Reachable (⟨[instL], [], 1⟩ : Sys) := by
    have := Relation.ReflTransGen.single h1
    rwa [heq] at this
  have h2 : Step (⟨[instL], [], 1⟩ : Sys) σb := by
    have h := Step.flush (⟨[instL], [], 1⟩ : Sys) [] [] instL rfl
    simpa [σb] using h
  exact r1.tail h2

/-- The pre-processing chain itself never calls `send_message`. -/
theorem preprocess_no_send (env : CallEnv) (t : EventType) (e : Event) :
    ∀ (t' : EventType) (e' : Event) (ids : Finset String) (agg : Option Aggregation),
    Effect.sendMessage t' e' ids agg ∉ (preprocess env t e).effects := by
  intro t' e' ids agg
  unfold preprocess
  split_ifs <;> simp

/-- C1: each `PendingAggregation` instance is handed to the delivery
collaborator at most once (flushed instance identities are distinct), a
flushed instance is no longer pending, so no later dispatch can merge into
it (merges only update queue members) and its logged hand-off — which
carries its final representative event, accumulator and delivery-id set —
is frozen (the flush log only grows); and once every deadline has elapsed
(empty queue) the flushed identities enumerate every created instance
exactly once. -/
theorem claim_c1_flush_once :
    (∀ σ : Sys, Reachable σ →
      (σ.sent.map Inst.aggId).Nodup
      ∧ (∀ i ∈ σ.sent, i.aggId ∉ σ.queue.map Inst.aggId)
      ∧ (σ.queue = [] → (σ.sent.map Inst.aggId).Perm (List.range σ.nextId)))
    ∧ (∀ σ σ' : Sys, Step σ σ' → ∃ tl, σ'.sent = σ.sent ++ tl) := by
  constructor
  · intro σ hreach
    have hperm := (reachable_good σ hreach).1
    have hnodup : ((σ.queue ++ σ.sent).map Inst.aggId).Nodup :=
      hperm.nodup_iff.mpr (List.nodup_range σ.nextId)
    rw [List.map_append] at hnodup
    rw [List.nodup_append] at hnodup
    obtain ⟨hnq, hns, hdisj⟩ := hnodup
    refine ⟨hns, ?_, ?_⟩
    · intro i hi hmem
      exact hdisj hmem (List.mem_map_of_mem Inst.aggId hi)
    · intro hq
      rw [hq] at hperm
      simpa using hperm
  · intro σ σ' hstep
    cases hstep with
    | deliver t e d =>
      unfold dispatchEnabled
      cases hl : offerLoop σ.queue t e d with
      | raised => exact ⟨[], by simp⟩
      | accepted q' => exact ⟨[], by simp⟩
      | unaccepted =>
        cases hst : aggregation_starters t e.action with
        | some k => exact ⟨[], by simp⟩
        | none => exact ⟨[newInst σ.nextId t e d], rfl⟩
    | flush pre post a hq => exact ⟨[a], rfl⟩

/-- Witness for C1 at the concrete reachable state `σb`. -/
theorem claim_c1_witness :
    (σb.sent.map Inst.aggId).Nodup
    ∧ (σb.queue = [] → (σb.sent.map Inst.aggId).Perm (List.range σb.nextId)) :=
  ⟨(claim_c1_flush_once.1 σb σb_reachable).1,
   (claim_c1_flush_once.1 σb σb_reachable).2.2⟩

/-- C3 (amended): for a pending label aggregation and a candidate of the
same event kind, the candidate merges if and only if its action is LABELED
or UNLABELED — the subject is never compared; a LABELED merge appends the
candidate's label to the added list, an UNLABELED merge appends it to the
removed list, and both merges postpone (reset) the deadline. -/
theorem claim_c3_label_aggregation :
    ∀ (s : AggState) (evt : Event) (d : String) (la lr : List (Option Label)),
    (s.eventType = .issues ∨ s.eventType = .pullRequest) →
    s.event.action = actXLabelAggregate s.eventType →
    s.agg.addedLabels = some la →
    s.agg.removedLabels = some lr →
    (evt.action = actLabeled s.eventType →
      aggregate s s.eventType evt d
        = .accept { s with
            agg := { s.agg with addedLabels := some (la ++ [evt.label]) }
            deliveryIds := insert d s.deliveryIds } true)
    ∧ (evt.action = actUnlabeled s.eventType →
      aggregate s s.eventType evt d
        = .accept { s with
            agg := { s.agg with removedLabels := some (lr ++ [evt.label]) }
            deliveryIds := insert d s.deliveryIds } true)
    ∧ (evt.action ≠ actLabeled s.eventType → evt.action ≠ actUnlabeled s.eventType →
      aggregate s s.eventType evt d = .reject) := by
  intro s evt d la lr hk hact hadd hrem
  rcases hk with hk | hk <;>
    refine ⟨?_, ?_, ?_⟩ <;> intro h1 <;> try intro h2
  all_goals
    simp_all [aggregate, aggregateSameKind, actOpened, actLabeled, actUnlabeled,
      actXLabelAggregate, hk]

/-- Witness for C3 (amended) on the concrete label aggregation `sLab`. -/
theorem claim_c3_witness :
    aggregate sLab sLab.eventType eLab2 "d2"
      = .accept { sLab with
          agg := { sLab.agg with
                   addedLabels := some ([some ⟨10, "bug"⟩] ++ [eLab2.label]) }
          deliveryIds := insert "d2" sLab.deliveryIds } true :=
  (claim_c3_label_aggregation sLab eLab2 "d2" [some ⟨10, "bug"⟩] []
    (Or.inl (by decide)) (by decide) (by decide) (by decide)).1 (by decide)

/-- C4 (amended): into an issue aggregation whose representative action is
MILESTONED or DEMILESTONED, any MILESTONED candidate of the same kind
merges by writing the "to" slot and any DEMILESTONED candidate by writing
the "from" slot — complementarity, subject and actor are never checked —
flipping the representative action to the X_MILESTONE_CHANGED
pseudo-action, with `postpone` left unset so the deadline is not extended;
any other action is rejected. -/
theorem claim_c4_milestone_aggregation :
    ∀ (s : AggState) (evt : Event) (d : String),
    s.eventType = .issues →
    (s.event.action = some (.issue .milestoned)
     ∨ s.event.action = some (.issue .demilestoned)) →
    (evt.action = some (.issue .milestoned) →
      aggregate s s.eventType evt d
        = .accept { s with
            agg := { s.agg with milestoneTo := some evt.milestone }
            event := { s.event with action := some (.issue .xMilestoneChanged) }
            deliveryIds := insert d s.deliveryIds } false)
    ∧ (evt.action = some (.issue .demilestoned) →
      aggregate s s.eventType evt d
        = .accept { s with
            agg := { s.agg with milestoneFrom := some evt.milestone }
            event := { s.event with action := some (.issue .xMilestoneChanged) }
            deliveryIds := insert d s.deliveryIds } false)
    ∧ (evt.action ≠ some (.issue .milestoned)
        → evt.action ≠ some (.issue .demilestoned) →
      aggregate s s.eventType evt d = .reject) := by
  intro s evt d hk hms
  refine ⟨?_, ?_, ?_⟩ <;> intro h1 <;> try intro h2
  all_goals
    rcases hms with hms | hms <;>
      simp_all [aggregate, aggregateSameKind, actOpened, actLabeled, actUnlabeled,
        actXLabelAggregate]

/-- Witness for C4 (amended): the complementary DEMILESTONED merge on the
concrete milestone aggregation `sMs`. -/
theorem claim_c4_witness :
    aggregate sMs sMs.eventType eDems "d2"
      = .accept { sMs with
          agg := { sMs.agg with milestoneFrom := some eDems.milestone }
          event := { sMs.event with action := some (.issue .xMilestoneChanged) }
          deliveryIds := insert "d2" sMs.deliveryIds } false :=
  (claim_c4_milestone_aggregation sMs eDems "d2" (by decide)
    (Or.inl (by decide))).2.1 (by decide)

/-- C6: starting an aggregation with the open-label-dropping starter
records the ids of the labels already on the opened subject (leaving event
and accumulator untouched), and a subsequent same-kind LABELED candidate
for the same subject whose label id is in that set is accepted as a merge
that changes nothing except adding the delivery id (and postponing), so the
flush delivers the original OPENED event unmodified. -/
theorem claim_c6_open_label_dropping :
    (∀ (t : EventType) (e : Event) (d : String),
      (runStarter .openLabelDropping (initState t e d)).labelIds
        = (e.subjectLabels.map Label.id).toFinset
      ∧ (runStarter .openLabelDropping (initState t e d)).event = e
      ∧ (runStarter .openLabelDropping (initState t e d)).agg = Aggregation.empty)
    ∧ ∀ (s : AggState) (evt : Event) (d : String) (l : Label),
      (s.eventType = .issues ∨ s.eventType = .pullRequest) →
      s.event.action = actOpened s.eventType →
      evt.action = actLabeled s.eventType →
      evt.issueId = s.event.issueId →
      evt.label = some l →
      l.id ∈ s.labelIds →
      aggregate s s.eventType evt d
        = .accept { s with deliveryIds := insert d s.deliveryIds } true := by
  constructor
  · intro t e d
    exact ⟨rfl, rfl, rfl⟩
  · intro s evt d l hk hopen hlab hid hlbl hmem
    rcases hk with hk | hk <;>
      simp_all [aggregate, aggregateSameKind, actOpened, actLabeled, actUnlabeled,
        actXLabelAggregate, labelInSet]

/-- Witness for C6 on the concrete opened issue 7 with label "bug". -/
theorem claim_c6_witness :
    aggregate sOpen sOpen.eventType eLabBug "d2"
      = .accept { sOpen with deliveryIds := insert "d2" sOpen.deliveryIds } true :=
  claim_c6_open_label_dropping.2 sOpen eLabBug "d2" ⟨10, "bug"⟩ (Or.inl (by decide))
    (by decide) (by decide) (by decide) (by decide) (by decide)

/-- C7: for a request with all three headers present and a known event
kind, the receiver classifies it as `invalidSignature` exactly when the
claimed signature differs from `"sha1=" ++` the HMAC-SHA1 hex digest of the
raw body under the subscription secret (`hmac.compare_digest`, modelled
extensionally as string equality), and on a mismatch the response status is
401 and the event handler is never invoked. -/
theorem claim_c7_signature_verification :
    ∀ (hexDigest : String → String → String) (jsonNonempty : String → Bool)
      (deserializeOk : EventType → String → Bool)
      (secret sig en dlv body : String) (t : EventType),
    parseEventType en = some t →
    (handleRequest hexDigest jsonNonempty deserializeOk secret
        ⟨some sig, some en, some dlv, body⟩ = .invalidSignature
      ↔ sig ≠ "sha1=" ++ hexDigest secret body)
    ∧ (sig ≠ "sha1=" ++ hexDigest secret body →
        handleStatus (handleRequest hexDigest jsonNonempty deserializeOk secret
          ⟨some sig, some en, some dlv, body⟩) = 401
        ∧ handlerInvoked (handleRequest hexDigest jsonNonempty deserializeOk secret
          ⟨some sig, some en, some dlv, body⟩) = false) := by
  intro hexDigest jsonNonempty deserializeOk secret sig en dlv body t ht
  by_cases hsig : sig = "sha1=" ++ hexDigest secret body
  · constructor
    · simp only [handleRequest, ht]
      rw [if_pos hsig]
      constructor
      · intro h
        split_ifs at h
      · intro h; exact absurd hsig h
    · intro h; exact absurd hsig h
  · constructor
    · simp only [handleRequest, ht]
      rw [if_neg hsig]
      simp [hsig]
    · intro _
      simp only [handleRequest, ht]
      rw [if_neg hsig]
      exact ⟨rfl, rfl⟩

/-- Witness for C7 at a concrete request whose signature matches. -/
theorem claim_c7_witness :
    (handleRequest (fun _ _ => "abc") (fun _ => true) (fun _ _ => true) "sec"
        ⟨some "sha1=abc", some "issues", some "d0", "body"⟩ = .invalidSignature
      ↔ "sha1=abc" ≠ "sha1=" ++ "abc")
    ∧ ("sha1=abc" ≠ "sha1=" ++ "abc" →
        handleStatus (handleRequest (fun _ _ => "abc") (fun _ => true)
          (fun _ _ => true) "sec"
          ⟨some "sha1=abc", some "issues", some "d0", "body"⟩) = 401
        ∧ handlerInvoked (handleRequest (fun _ _ => "abc") (fun _ => true)
          (fun _ _ => true) "sec"
          ⟨some "sha1=abc", some "issues", some "d0", "body"⟩) = false) :=
  claim_c7_signature_verification (fun _ _ => "abc") (fun _ => true)
    (fun _ _ => true) "sec" "sha1=abc" "issues" "d0" "body" .issues (by decide)

/-- C8 (amended): with a negative aggregation timeout, every event that the
pre-processing chain does not return early on (the workflow-job branch can)
is flushed immediately through `send_message` with the singleton
delivery-id set and no accumulator, the pending queue is not touched and no
new `PendingAggregation` is created — and that flush is the only
`send_message` call of the dispatch. -/
theorem claim_c8_negative_timeout :
    ∀ (env : CallEnv) (timeout : Int) (σ : Sys) (t : EventType) (e : Event)
      (d : String),
    timeout < 0 →
    (preprocess env t e).earlyReturn = false →
    Effect.sendMessage t (preprocess env t e).evt {d} none
      ∈ (webhookCall env timeout σ t e d).effects
    ∧ (webhookCall env timeout σ t e d).queue = σ.queue
    ∧ (webhookCall env timeout σ t e d).nextId = σ.nextId
    ∧ ∀ (t' : EventType) (e' : Event) (ids : Finset String)
        (agg : Option Aggregation),
        Effect.sendMessage t' e' ids agg ∈ (webhookCall env timeout σ t e d).effects →
        t' = t ∧ e' = (preprocess env t e).evt ∧ ids = {d} ∧ agg = none := by
  intro env timeout σ t e d ht hearly
  have hcall : webhookCall env timeout σ t e d
      = ⟨(preprocess env t e).effects
          ++ [.sendMessage t (preprocess env t e).evt {d} none]
          ++ (if t = .push ∧ env.messageSentOk = true then [.putPushEvent] else []),
         σ.queue, σ.nextId⟩ := by
    simp [webhookCall, hearly, ht]
  refine ⟨?_, ?_, ?_, ?_⟩
  · rw [hcall]; simp
  · rw [hcall]
  · rw [hcall]
  · intro t' e' ids agg hmem
    rw [hcall] at hmem
    simp only [List.mem_append] at hmem
    rcases hmem with (hmem | hmem) | hmem
    · exact absurd hmem (preprocess_no_send env t e t' e' ids agg)
    · simp at hmem
      exact ⟨hmem.1, hmem.2.1, hmem.2.2.1, hmem.2.2.2⟩
    · split_ifs at hmem <;> simp_all

/-- Witness for C8 (amended): an ISSUES event with the timeout set to -1. -/
theorem claim_c8_witness :
    Effect.sendMessage .issues (preprocess envc .issues eLab1).evt {"d1"} none
      ∈ (webhookCall envc (-1) Sys.init .issues eLab1 "d1").effects
    ∧ (webhookCall envc (-1) Sys.init .issues eLab1 "d1").queue = Sys.init.queue := by
  have h := claim_c8_negative_timeout envc (-1) Sys.init .issues eLab1 "d1"
    (by decide) (by decide)
  exact ⟨h.1, h.2.1⟩

/-- C9 (amended): dispatching a "meta: deleted" event deletes the webhook
registration, but the event then continues through the normal path: it is
never accepted by any pending aggregation (the queue is unchanged), and it
is flushed solo through `send_message` — directly when aggregation is
disabled, or via a fresh `PendingAggregation` that, finding no starter for
(META, DELETED), sends right away. -/
theorem claim_c9_meta_deleted :
    ∀ (env : CallEnv) (timeout : Int) (σ : Sys) (e : Event) (d : String),
    e.action = some (.meta .deleted) →
    Effect.deleteWebhook ∈ (webhookCall env timeout σ .meta e d).effects
    ∧ (webhookCall env timeout σ .meta e d).queue = σ.queue
    ∧ ∃ agg, Effect.sendMessage .meta e {d} agg
        ∈ (webhookCall env timeout σ .meta e d).effects := by
  intro env timeout σ e d hact
  by_cases ht : timeout < 0
  · simp [webhookCall, preprocess, hact, ht, newInst, initState]
  · simp [webhookCall, preprocess, hact, ht, dispatchEnabled, offerLoop_meta,
      aggregation_starters, newInst, initState]

/-- Witness for C9 (amended) at the concrete META / DELETED event with
aggregation enabled. -/
theorem claim_c9_witness :
    Effect.deleteWebhook ∈ (webhookCall envc 1 Sys.init .meta eMeta "d1").effects
    ∧ (webhookCall envc 1 Sys.init .meta eMeta "d1").queue = Sys.init.queue := by
  have h := claim_c9_meta_deleted envc 1 Sys.init eMeta "d1" (by decide)
  exact ⟨h.1, h.2.1⟩

/-- C10: every accepting `aggregate` call adds the candidate's delivery id
to the instance's set and clears `postpone` exactly for the milestone
slot-filling merge; consequently, in every reachable state every pending or
flushed instance's delivery-id set is exactly its starter's delivery id
together with the delivery ids of its accepted merges. -/
theorem claim_c10_delivery_ids :
    (∀ (s : AggState) (t : EventType) (e : Event) (d : String)
       (s' : AggState) (p : Bool),
      aggregate s t e d = .accept s' p →
      s'.deliveryIds = insert d s.deliveryIds
      ∧ (p = false ↔ milestoneSlotFill s t e))
    ∧ (∀ σ : Sys, Reachable σ → ∀ i ∈ σ.queue ++ σ.sent,
        i.st.deliveryIds = insert i.starterId i.mergedIds) :=
  ⟨aggregate_accept, fun σ h => (reachable_good σ h).2⟩

/-- Witness for C10 at the concrete swallowed open-label-drop merge. -/
theorem claim_c10_witness :
    ({ sOpen with deliveryIds := insert "d2" sOpen.deliveryIds } : AggState).deliveryIds
      = insert "d2" sOpen.deliveryIds
    ∧ (true = false ↔ milestoneSlotFill sOpen .issues eLabBug) :=
  claim_c10_delivery_ids.1 sOpen .issues eLabBug "d2"
    { sOpen with deliveryIds := insert "d2" sOpen.deliveryIds } true (by decide)

end Github
